import Mathlib

/-!
Verification of the clearView liveness-proof backend.

The development shallowly embeds the decision logic of the repository:

* the anti-spoof ensemble scorer and bbox gate of
  Silent-Face-Anti-Spoofing-master/server.py (SpoofService.analyze);
* the gesture signal extractor, validate verdict and fallback stub of
  python/server.py (LivenessValidator, process_frame, validate_frame);
* the verification-token manager of python/auth/jwt_tokens.py.

Machine floats of the source are modelled as rationals; numpy vectors as
explicit 3-component structures; Python strings of the auth module as
codepoint lists.  Inference itself (neural nets, mediapipe) is external:
the embedding takes the per-model score vectors and the landmark points
as inputs, exactly as the decision code receives them.
-/

set_option autoImplicit false

attribute [local semireducible] Rat.add Rat.mul Rat.sub Rat.inv Rat.ofScientific

namespace ClearView

/-! ## Anti-spoof ensemble scorer (Silent-Face-Anti-Spoofing-master/server.py) -/

/-- A 3-class score vector, as produced by one model's softmax output
(`self.predictor.predict` returns a numpy row of shape (1,3)). -/
structure Vec3 where
  c0 : ℚ
  c1 : ℚ
  c2 : ℚ
  deriving DecidableEq, Repr

def Vec3.zero : Vec3 := ⟨0, 0, 0⟩

/-- Element-wise sum, mirroring `prediction += scores`. -/
def Vec3.add (a b : Vec3) : Vec3 := ⟨a.c0 + b.c0, a.c1 + b.c1, a.c2 + b.c2⟩

/-- Accumulation loop of `SpoofService.analyze`: start from `np.zeros((1,3))`
and add each model's scores in order. -/
def sumScores (scores : List Vec3) : Vec3 :=
  scores.foldl Vec3.add Vec3.zero

/-- Component access `prediction[0][i]`. -/
def get3 (v : Vec3) : ℕ → ℚ
  | 0 => v.c0
  | 1 => v.c1
  | _ => v.c2

/-- Total of the accumulated vector (used for the distribution invariant). -/
def sum3 (v : Vec3) : ℚ := v.c0 + v.c1 + v.c2

/-- `int(np.argmax(prediction))`: index of the first maximal component. -/
def argmax3 (v : Vec3) : ℕ :=
  if v.c1 ≤ v.c0 ∧ v.c2 ≤ v.c0 then 0
  else if v.c2 ≤ v.c1 then 1
  else 2

/-- The classification record built by `SpoofService.analyze` lines 103-110. -/
structure Classified where
  label : String
  confidence : ℚ
  passed : Bool
  deriving DecidableEq, Repr

/-- Lines 103-110 of `SpoofService.analyze`: argmax label, confidence
normalised by `max(len(self.model_paths), 1)`, the `MIN_CONFIDENCE` gate,
and the fail-closed relabelling to "spoof". -/
def classify (pred : Vec3) (modelCount : ℕ) (minConf : ℚ) : Classified :=
  let label_idx := argmax3 pred
  let label := if label_idx = 1 then "real" else "spoof"
  let confidence := get3 pred label_idx / ((max modelCount 1 : ℕ) : ℚ)
  let passed := (label = "real" : Bool) && decide (confidence ≥ minConf)
  let label := if passed then label else "spoof"
  { label := label, confidence := confidence, passed := passed }

/-- Face bounding box `(x, y, w, h)` as returned by `get_bbox`. -/
structure BBox where
  x : ℤ
  y : ℤ
  w : ℤ
  h : ℤ
  deriving DecidableEq, Repr

/-- The two `ValueError`s raised by `SpoofService.analyze` before any model
inference runs. -/
inductive AnalyzeError where
  | noFaceDetected
  | faceTooSmall
  deriving DecidableEq, Repr

/-- Result payload of `SpoofService.analyze` (the fields the claims are
about). -/
structure AnalyzeResult where
  label : String
  confidence : ℚ
  passed : Bool
  bbox : BBox
  deriving DecidableEq, Repr

/-- `SpoofService.analyze`: bbox gate (`No face detected`, `Face too small`)
followed by the ensemble accumulation and the confidence gate.  Model
inference is external, so the embedding receives the list of per-model
score vectors; the gate branches do not consult it. -/
def analyze (minConf : ℚ) (minArea : ℤ) (bbox : Option BBox)
    (modelScores : List Vec3) : Except AnalyzeError AnalyzeResult :=
  match bbox with
  | none => .error .noFaceDetected
  | some b =>
    if b.w * b.h < minArea then .error .faceTooSmall
    else
      let pred := sumScores modelScores
      let c := classify pred modelScores.length minConf
      .ok { label := c.label, confidence := c.confidence, passed := c.passed, bbox := b }

/-- A valid 3-class probability distribution: non-negative entries summing
to 1 (what a softmax output satisfies). -/
def validDist (v : Vec3) : Prop :=
  0 ≤ v.c0 ∧ 0 ≤ v.c1 ∧ 0 ≤ v.c2 ∧ sum3 v = 1

instance (v : Vec3) : Decidable (validDist v) := by
  unfold validDist; infer_instance

/-- Non-negative components. -/
def nonneg3 (v : Vec3) : Prop := 0 ≤ v.c0 ∧ 0 ≤ v.c1 ∧ 0 ≤ v.c2

/-! ## Fallback stub and liveness decision (python/server.py) -/

/-- Dynamic value returned by an anti-spoof `predict` implementation:
`detect_liveness` accepts an int/label/sequence and normalises it. -/
inductive PredictResult where
  | int (n : ℤ)
  | str (s : String)
  | seq (elems : List PredictResult)
  deriving Repr

/-- Lines 184-185 of `LivenessValidator.detect_liveness`: a non-empty
sequence is replaced by its first element. -/
def unwrapResult : PredictResult → PredictResult
  | .seq (x :: _) => x
  | r => r

/-- ASCII lowercasing of a label string (`result.lower()`). -/
def strLower (s : String) : String := String.mk (s.data.map Char.toLower)

/-- Lines 186-188 of `LivenessValidator.detect_liveness`: a string label is
live iff its lowercase form is in the accepted set; anything else is live
iff it equals the integer 1 (a Python sequence never equals 1). -/
def livenessOfResult (r : PredictResult) : Bool :=
  match unwrapResult r with
  | .str s => ["real", "live", "1", "true"].contains (strLower s)
  | .int n => n == 1
  | .seq _ => false

/-- Frames are opaque to the decision logic modelled here. -/
abbrev Frame := ℕ

/-- `_StubAntiSpoofing.predict` (python/server.py lines 105-109): the
fallback used when the anti-spoof ensemble failed to load returns the
constant 1 for every frame. -/
def stubPredict (_frame : Frame) : PredictResult := .int 1

/-- `LivenessValidator.detect_liveness` composed with the fallback stub:
the liveness decision for a frame while the ensemble is unavailable. -/
def detectLivenessStub (frame : Frame) : Bool :=
  livenessOfResult (stubPredict frame)

/-! ## Gesture signal extractor (python/server.py, LivenessValidator) -/

/-- Mutable state of `LivenessValidator.__init__`: blink counter, previous
eye-closed flag, and the wrist-x deque of capacity 15. -/
structure LivenessValidator where
  blink_count : ℕ
  prev_eye_closed : Bool
  wave_x_history : List ℚ
  deriving DecidableEq, Repr

/-- Fresh validator state (`__init__`). -/
def LivenessValidator.init : LivenessValidator :=
  { blink_count := 0, prev_eye_closed := false, wave_x_history := [] }

/-- `detect_blink` lines 201-209, taking the two per-eye EAR values the
geometry produced: average them, threshold at 0.25, fire on the falling
edge, update the carried state. -/
def detect_blink (v : LivenessValidator) (leftEar rightEar : ℚ) :
    Bool × LivenessValidator :=
  let avg_ear := (leftEar + rightEar) / 2
  let eye_closed := decide (avg_ear < (0.25 : ℚ))
  let blink_event := eye_closed && !v.prev_eye_closed
  (blink_event,
    { v with
      prev_eye_closed := eye_closed
      blink_count := v.blink_count + (if blink_event then 1 else 0) })

/-- A 3-D landmark point (already scaled by `process_frame`). -/
structure Pt where
  x : ℚ
  y : ℚ
  z : ℚ
  deriving DecidableEq, Repr

/-- Line 339/348 of `process_frame`: a normalised mediapipe landmark is
scaled to pixel coordinates before being handed to the extractor. -/
def scalePoint (frameW frameH : ℚ) (p : Pt) : Pt :=
  { x := p.x * frameW, y := p.y * frameH, z := p.z }

/-- `deque(maxlen=15).append`: the oldest entry drops out when full. -/
def dequeAppend15 (l : List ℚ) (x : ℚ) : List ℚ :=
  let l2 := l ++ [x]
  if 15 < l2.length then l2.drop (l2.length - 15) else l2

/-- `np.ptp`: max minus min of a window (0 on the empty window, which the
code never reaches because of the length-5 guard). -/
def ptp : List ℚ → ℚ
  | [] => 0
  | x :: xs => xs.foldl max x - xs.foldl min x

/-- `np.sign` of a difference. -/
def qsign (q : ℚ) : ℤ :=
  if 0 < q then 1 else if q < 0 then -1 else 0

/-- `np.diff`: consecutive differences. -/
def diffs (l : List ℚ) : List ℚ := List.zipWith (fun a b => a - b) l.tail l

/-- `np.sum(dirs[1:] != dirs[:-1])`: number of adjacent sign switches. -/
def switchCount (dirs : List ℤ) : ℕ :=
  (List.zipWith (fun a b => if a ≠ b then (1 : ℕ) else 0) dirs.tail dirs).sum

/-- `detect_wave` lines 261-294: the raised test (`wrist[1] < 0.5` and
fingertip above wrist), the history reset on not-raised, the length-5
minimum, the amplitude threshold `max(30.0, 0.04 * frame_width)` and the
two-switch oscillation requirement. -/
def detect_wave (v : LivenessValidator) (hand : Option (List Pt))
    (frame_width : ℚ) : Bool × LivenessValidator :=
  match hand with
  | none => (false, { v with wave_x_history := [] })
  | some pts =>
    if pts.isEmpty then (false, { v with wave_x_history := [] })
    else
      let wrist := pts.getD 0 ⟨0, 0, 0⟩
      let tip := pts.getD 12 ⟨0, 0, 0⟩
      let hand_raised := decide (wrist.y < (0.5 : ℚ)) && decide (tip.y < wrist.y)
      if !hand_raised then (false, { v with wave_x_history := [] })
      else
        let hist := dequeAppend15 v.wave_x_history wrist.x
        if hist.length < 5 then (false, { v with wave_x_history := hist })
        else
          let amplitude := ptp hist
          let threshold := max (30 : ℚ) ((0.04 : ℚ) * frame_width)
          let dirs := ((diffs hist).map qsign).filter (fun d => d != 0)
          if dirs.length < 2 then (false, { v with wave_x_history := hist })
          else
            let switches := switchCount dirs
            (decide (threshold < amplitude) && decide (2 ≤ switches),
              { v with wave_x_history := hist })

/-- Feed a sequence of per-frame EAR pairs through `detect_blink`,
returning the per-frame blink events and the final state. -/
def blinkRun (v : LivenessValidator) :
    List (ℚ × ℚ) → List Bool × LivenessValidator
  | [] => ([], v)
  | e :: es =>
    let r := detect_blink v e.1 e.2
    let rest := blinkRun r.2 es
    (r.1 :: rest.1, rest.2)

/-- Feed a sequence of per-frame hand landmark sets through `detect_wave`
at a fixed frame width. -/
def waveRun (v : LivenessValidator) (frame_width : ℚ) :
    List (Option (List Pt)) → List Bool × LivenessValidator
  | [] => ([], v)
  | h :: hs =>
    let r := detect_wave v h frame_width
    let rest := waveRun r.2 frame_width hs
    (r.1 :: rest.1, rest.2)

/-- Eye-closed test on an EAR pair (the threshold comparison of line 203). -/
def earClosed (e : ℚ × ℚ) : Bool := decide ((e.1 + e.2) / 2 < (0.25 : ℚ))

/-- The server keeps ONE module-level `validator = LivenessValidator()`
(line 297); every frame of every session mutates it.  A trace interleaves
frames of several sessions; each entry carries its session id and the EAR
pair of its frame. -/
def runSharedBlink (v : LivenessValidator) :
    List (String × ℚ × ℚ) → List (String × Bool)
  | [] => []
  | f :: fs =>
    let r := detect_blink v f.2.1 f.2.2
    (f.1, r.1) :: runSharedBlink r.2 fs

/-- Stated from the spec sentence for comparison with the code: the hand is
raised when the wrist is above frame mid-height with the fingertip above
the wrist. -/
def raisedPerSpec (frame_height : ℚ) (wrist tip : Pt) : Bool :=
  decide (wrist.y < frame_height / 2) && decide (tip.y < wrist.y)

/-- A 13-point hand landmark set as `process_frame` delivers it (pixel
coordinates, frame 640x480): wrist at pixel row 100 (normalised y 5/24),
middle fingertip at pixel row 50, wrist x as given. -/
def pixelHand (xpix : ℚ) : List Pt :=
  scalePoint 640 480 ⟨xpix / 640, mkRat 5 24, 0⟩ ::
    (List.replicate 11 ⟨0, 0, 0⟩ ++ [scalePoint 640 480 ⟨xpix / 640, mkRat 5 48, 0⟩])

/-- The same hand with its y-coordinates left normalised (what the 0.5
test of `detect_wave` implicitly expects). -/
def normalHand (xpix : ℚ) : List Pt :=
  ⟨xpix, mkRat 5 24, 0⟩ :: (List.replicate 11 ⟨0, 0, 0⟩ ++ [⟨xpix, mkRat 5 48, 0⟩])

/-- Six frames of a wrist oscillating between pixel columns 100 and 200
(amplitude 100 > max(30, 0.04*640) = 30, with repeated direction
switches). -/
def oscillation : List ℚ := [100, 200, 100, 200, 100, 200]

/-! ## Validate verdict (python/server.py, validate_frame) -/

/-- The boolean fields of the `results` dict built by `process_frame`
(`face_detected` is truthy iff a face was found by either detector). -/
structure FrameResults where
  liveness : Bool
  face_detected : Bool
  blink_detected : Bool
  smile_detected : Bool
  head_turn_left : Bool
  head_turn_right : Bool
  wave_detected : Bool
  deriving DecidableEq, Repr

/-- Python truthiness of the optional `gesture` / `wallet_address` form
fields: absent or empty string is falsy. -/
def strTruthy : Option String → Bool
  | none => false
  | some s => !(s == "")

/-- `gesture_map.get(gesture, False)` over the five recognised gestures. -/
def gesture_map_get (r : FrameResults) (g : String) : Bool :=
  if g = "blink" then r.blink_detected
  else if g = "smile" then r.smile_detected
  else if g = "turn_left" then r.head_turn_left
  else if g = "turn_right" then r.head_turn_right
  else if g = "wave" then r.wave_detected
  else false

/-- Lines 459-468 of `validate_frame`: `gesture_ok` starts true and is
looked up in the gesture map only when a gesture was (truthily) supplied. -/
def gesture_ok (gesture : Option String) (r : FrameResults) : Bool :=
  if strTruthy gesture then gesture_map_get r (gesture.getD "") else true

/-- Line 471: `success = liveness and face_detected and gesture_ok`. -/
def validate_success (r : FrameResults) (gesture : Option String) : Bool :=
  r.liveness && r.face_detected && gesture_ok gesture r

/-- The gesture failure message (an f-string in the source). -/
def gesture_reason (gesture : Option String) : String :=
  "gesture \x27" ++ gesture.getD "" ++ "\x27 not detected"

/-- Lines 475-483: the ordered failure reason list (face first, then
liveness, then gesture, with a fallback for an empty list). -/
def failure_reasons (r : FrameResults) (gesture : Option String) : List String :=
  let reasons : List String := []
  let reasons := if !r.face_detected then reasons ++ ["face not detected"] else reasons
  let reasons := if !r.liveness then reasons ++ ["liveness check failed"] else reasons
  let reasons :=
    if !gesture_ok gesture r && strTruthy gesture then reasons ++ [gesture_reason gesture]
    else reasons
  if reasons.isEmpty then ["unspecified validation error"] else reasons

/-- Line 507: a verification token is created iff the verdict succeeded and
a (truthy) wallet address was supplied. -/
def token_issued (success : Bool) (wallet_address : Option String) : Bool :=
  success && strTruthy wallet_address

/-- A frame on which every check failed. -/
def allFailResults : FrameResults :=
  { liveness := false, face_detected := false, blink_detected := false,
    smile_detected := false, head_turn_left := false, head_turn_right := false,
    wave_detected := false }

/-- A live frame with a face but no gesture signal at all. -/
def noGestureResults : FrameResults :=
  { liveness := true, face_detected := true, blink_detected := false,
    smile_detected := false, head_turn_left := false, head_turn_right := false,
    wave_detected := false }

/-! ## Verification token manager (python/auth/jwt_tokens.py) -/

/-- Python strings of the auth module, as codepoint sequences. -/
abbrev PyStr := List ℕ

/-- ASCII lowercasing of one codepoint (`str.lower` on the identifier
alphabet the module handles). -/
def lowerCp (n : ℕ) : ℕ := if 65 ≤ n ∧ n ≤ 90 then n + 32 else n

/-- `str.lower()`. -/
def pyLower (s : PyStr) : PyStr := s.map lowerCp

/-- Codepoints of a Lean string literal, for concrete inputs. -/
def pyStr (s : String) : PyStr := s.data.map Char.toNat

/-- `TOKEN_EXPIRY_HOURS = 24`. -/
def TOKEN_EXPIRY_HOURS : ℤ := 24

/-- The claim set signed into a verification token (`create_verification_token`
lines 84-97).  `verified_at` is the issue instant. -/
structure TokenPayload where
  iss : PyStr
  sub : PyStr
  iat : ℤ
  exp : ℤ
  jti : PyStr
  challenge_type : PyStr
  proof_hash : PyStr
  verified_at : ℤ
  verification_type : PyStr
  deriving DecidableEq, Repr

/-- A signed token: the claim set plus the signing key that produced the
signature (HS256 signing is the trusted external primitive). -/
structure SignedToken where
  payload : TokenPayload
  signedWith : ℕ
  deriving DecidableEq, Repr

/-- The two distinct error kinds of `validate_token`: the expired case and
every other invalid-token case. -/
inductive TokenError where
  | expired
  | invalid
  deriving DecidableEq, Repr

def PROOF_OF_LIFE : PyStr := pyStr "proof_of_life"

def ISSUER : PyStr := pyStr "vault-liveness-detector"

/-- `create_verification_token`: subject is the lowercased wallet address,
expiry is 24 hours after issue, custom claims carry the challenge type,
proof hash and `verification_type="proof_of_life"`. Times are UNIX
seconds. -/
def create_verification_token (key : ℕ) (wallet_address challenge_type
    proof_hash session_id : PyStr) (now : ℤ) : SignedToken :=
  { payload :=
      { iss := ISSUER
        sub := pyLower wallet_address
        iat := now
        exp := now + TOKEN_EXPIRY_HOURS * 3600
        jti := session_id
        challenge_type := challenge_type
        proof_hash := proof_hash
        verified_at := now
        verification_type := PROOF_OF_LIFE }
    signedWith := key }

/-- `validate_token`: signature and expiry are checked (`jwt.decode` with
`verify_signature`, `verify_exp`); the required claims are structurally
present.  The expired case is reported distinctly from every other
invalid case. -/
def validate_token (key : ℕ) (t : SignedToken) (now : ℤ) :
    Except TokenError TokenPayload :=
  if t.signedWith ≠ key then .error .invalid
  else if t.payload.exp ≤ now then .error .expired
  else .ok t.payload

/-- `verify_for_minting`: validation failures are caught and return false;
a subject/wallet case-insensitive mismatch or a wrong `verification_type`
also return false. -/
def verify_for_minting (key : ℕ) (t : SignedToken) (wallet_address : PyStr)
    (now : ℤ) : Bool :=
  match validate_token key t now with
  | .error _ => false
  | .ok payload =>
    if pyLower payload.sub ≠ pyLower wallet_address then false
    else if payload.verification_type ≠ PROOF_OF_LIFE then false
    else true

/-! ## Theorems -/

/-- Claim C1: the claim states that while the anti-spoof ensemble is
unavailable the fallback stub makes `detect_liveness` return false
(fail-closed).  The code does the opposite: `_StubAntiSpoofing.predict`
returns 1 for every frame, which `detect_liveness` maps to a live verdict,
contradicting the comment at python/server.py line 316 ("fails closed if
model missing").  This theorem evaluates the embedded stub path: the
liveness decision is `true` on every frame. -/
theorem stub_liveness_fails_open (f : Frame) : detectLivenessStub f = true := rfl

/-- Claim C2: for every accumulated ensemble vector, `passed` holds exactly
when the argmax class is the real class (index 1) and the normalised
confidence clears the floor; whenever `passed` is false the final label is
forced to "spoof" even when the raw argmax was the real class. -/
theorem classify_confidence_gate (pred : Vec3) (n : ℕ) (minConf : ℚ) :
    ((classify pred n minConf).passed
      = (decide (argmax3 pred = 1)
          && decide ((classify pred n minConf).confidence ≥ minConf)))
    ∧ ((classify pred n minConf).passed = false
        → (classify pred n minConf).label = "spoof") := by
  constructor
  · by_cases h : argmax3 pred = 1 <;> simp [classify, h]
  · intro hp
    by_cases h : argmax3 pred = 1 <;>
      simp only [classify, h, if_true, if_false, reduceIte] at hp ⊢ <;>
      simp_all

/-- Claim C2 witness: one accumulated vector whose argmax is the real class
but whose confidence 0.97 misses the 0.98 floor: not passed, label forced
to "spoof". -/
theorem classify_confidence_gate_witness :
    (classify ⟨mkRat 1 100, mkRat 97 100, mkRat 2 100⟩ 1 (mkRat 49 50)).label = "spoof"
    ∧ argmax3 ⟨mkRat 1 100, mkRat 97 100, mkRat 2 100⟩ = 1 :=
  ⟨(classify_confidence_gate ⟨mkRat 1 100, mkRat 97 100, mkRat 2 100⟩ 1 (mkRat 49 50)).2
      (by decide), by decide⟩

/-- Claim C5: `analyze` fails with the no-face error exactly when the
bounding box is null, fails with the face-too-small error exactly when a
box is present with area below the minimum, and in the too-small case the
outcome does not depend on the per-model scores (no inference result is
consulted). -/
theorem analyze_bbox_gate (minConf : ℚ) (minArea : ℤ) (bbox : Option BBox)
    (scores : List Vec3) :
    (analyze minConf minArea bbox scores = .error .noFaceDetected ↔ bbox = none)
    ∧ (analyze minConf minArea bbox scores = .error .faceTooSmall
        ↔ ∃ b, bbox = some b ∧ b.w * b.h < minArea)
    ∧ (∀ b scores2, bbox = some b → b.w * b.h < minArea →
        analyze minConf minArea bbox scores = analyze minConf minArea bbox scores2) := by
  refine ⟨?_, ?_, ?_⟩
  · cases bbox with
    | none => simp [analyze]
    | some b => by_cases h : b.w * b.h < minArea <;> simp [analyze, h]
  · cases bbox with
    | none => simp [analyze]
    | some b => by_cases h : b.w * b.h < minArea <;> simp [analyze, h]
  · rintro b scores2 rfl h
    simp [analyze, h]

/-- Claim C5 witness: a 50x50 box (area 2500 < 6400) is rejected as too
small whatever the model scores would have been. -/
theorem analyze_bbox_gate_witness :
    analyze (mkRat 49 50) 6400 (some ⟨0, 0, 50, 50⟩) []
      = analyze (mkRat 49 50) 6400 (some ⟨0, 0, 50, 50⟩) [⟨1, 0, 0⟩] :=
  (analyze_bbox_gate (mkRat 49 50) 6400 (some ⟨0, 0, 50, 50⟩) []).2.2
    ⟨0, 0, 50, 50⟩ [⟨1, 0, 0⟩] rfl (by decide)

theorem sum3_add (a b : Vec3) : sum3 (a.add b) = sum3 a + sum3 b := by
  simp only [sum3, Vec3.add]; ring

theorem sum3_foldl (l : List Vec3) (acc : Vec3) (h : ∀ v ∈ l, sum3 v = 1) :
    sum3 (l.foldl Vec3.add acc) = sum3 acc + l.length := by
  induction l generalizing acc with
  | nil => simp
  | cons v vs ih =>
    have hv : sum3 v = 1 := h v (List.mem_cons_self v vs)
    have hs : ∀ w ∈ vs, sum3 w = 1 := fun w hw => h w (List.mem_cons_of_mem v hw)
    simp only [List.foldl_cons, ih _ hs, sum3_add, hv, List.length_cons]
    push_cast
    ring

theorem nonneg3_add (a b : Vec3) (ha : nonneg3 a) (hb : nonneg3 b) :
    nonneg3 (a.add b) := by
  obtain ⟨ha0, ha1, ha2⟩ := ha
  obtain ⟨hb0, hb1, hb2⟩ := hb
  exact ⟨by simpa [Vec3.add] using add_nonneg ha0 hb0,
    by simpa [Vec3.add] using add_nonneg ha1 hb1,
    by simpa [Vec3.add] using add_nonneg ha2 hb2⟩

theorem nonneg3_foldl (l : List Vec3) (acc : Vec3) (hacc : nonneg3 acc)
    (h : ∀ v ∈ l, nonneg3 v) : nonneg3 (l.foldl Vec3.add acc) := by
  induction l generalizing acc with
  | nil => simpa
  | cons v vs ih =>
    exact ih (acc.add v)
      (nonneg3_add acc v hacc (h v (List.mem_cons_self v vs)))
      (fun w hw => h w (List.mem_cons_of_mem v hw))

theorem get3_argmax3_eq_max (v : Vec3) :
    get3 v (argmax3 v) = max (max v.c0 v.c1) v.c2 := by
  unfold argmax3
  split_ifs with h1 h2
  · obtain ⟨ha, hb⟩ := h1
    show v.c0 = _
    rw [max_eq_left ha, max_eq_left hb]
  · show v.c1 = _
    have hc0 : v.c0 ≤ v.c1 := by
      by_contra hco
      push_neg at hco
      exact h1 ⟨hco.le, le_trans h2 hco.le⟩
    rw [max_eq_right hc0, max_eq_left h2]
  · push_neg at h2
    show v.c2 = _
    have hc0 : v.c0 ≤ v.c2 := by
      by_contra hco
      push_neg at hco
      rcases le_or_lt v.c1 v.c0 with hc | hc
      · exact h1 ⟨hc, hco.le⟩
      · linarith
    rw [max_eq_right (max_le hc0 h2.le)]

/-- Claim C9: for N >= 1 models whose outputs are valid 3-class
distributions, the accumulated vector sums to N over all classes, and the
reported confidence is the accumulated maximum class value divided by N,
lying in [0, 1]. -/
theorem ensemble_confidence_invariant (scores : List Vec3) (minConf : ℚ)
    (hn : 1 ≤ scores.length) (hv : ∀ v ∈ scores, validDist v) :
    sum3 (sumScores scores) = (scores.length : ℚ)
    ∧ (classify (sumScores scores) scores.length minConf).confidence
        = max (max (sumScores scores).c0 (sumScores scores).c1) (sumScores scores).c2
            / (scores.length : ℚ)
    ∧ 0 ≤ (classify (sumScores scores) scores.length minConf).confidence
    ∧ (classify (sumScores scores) scores.length minConf).confidence ≤ 1 := by
  have hsum : sum3 (sumScores scores) = (scores.length : ℚ) := by
    have h := sum3_foldl scores Vec3.zero (fun v hv' => (hv v hv').2.2.2)
    simp only [sumScores]
    rw [h]
    simp [sum3, Vec3.zero]
  have hnn : nonneg3 (sumScores scores) :=
    nonneg3_foldl scores Vec3.zero ⟨le_refl 0, le_refl 0, le_refl 0⟩
      (fun v hv' => ⟨(hv v hv').1, (hv v hv').2.1, (hv v hv').2.2.1⟩)
  have hconf : (classify (sumScores scores) scores.length minConf).confidence
      = max (max (sumScores scores).c0 (sumScores scores).c1) (sumScores scores).c2
          / (scores.length : ℚ) := by
    show get3 (sumScores scores) (argmax3 (sumScores scores))
        / ((max scores.length 1 : ℕ) : ℚ) = _
    rw [get3_argmax3_eq_max, max_eq_left hn]
  have hmaxnn : (0 : ℚ)
      ≤ max (max (sumScores scores).c0 (sumScores scores).c1) (sumScores scores).c2 :=
    le_trans hnn.2.2 (le_max_right _ _)
  have hmax_le : max (max (sumScores scores).c0 (sumScores scores).c1)
      (sumScores scores).c2 ≤ (scores.length : ℚ) := by
    rw [← hsum]
    obtain ⟨h0, h1, h2⟩ := hnn
    have e0 : (sumScores scores).c0 ≤ sum3 (sumScores scores) := by
      simp only [sum3]; linarith
    have e1 : (sumScores scores).c1 ≤ sum3 (sumScores scores) := by
      simp only [sum3]; linarith
    have e2 : (sumScores scores).c2 ≤ sum3 (sumScores scores) := by
      simp only [sum3]; linarith
    exact max_le (max_le e0 e1) e2
  have hN : (0 : ℚ) < (scores.length : ℚ) := by
    exact_mod_cast lt_of_lt_of_le Nat.zero_lt_one hn
  refine ⟨hsum, hconf, ?_, ?_⟩
  · rw [hconf]
    exact div_nonneg hmaxnn hN.le
  · rw [hconf]
    exact (div_le_one hN).mpr hmax_le

/-- Claim C9 witness: two models returning real-class probabilities 0.99
and 0.995 (spec scenario): accumulated total 2, confidence 0.9925 in
[0, 1]. -/
theorem ensemble_confidence_invariant_witness :
    sum3 (sumScores [⟨mkRat 1 200, mkRat 99 100, mkRat 1 200⟩,
        ⟨mkRat 1 400, mkRat 199 200, mkRat 1 400⟩]) = ((2 : ℕ) : ℚ)
    ∧ (classify (sumScores [⟨mkRat 1 200, mkRat 99 100, mkRat 1 200⟩,
          ⟨mkRat 1 400, mkRat 199 200, mkRat 1 400⟩]) 2 (mkRat 49 50)).confidence
        = max (max (sumScores [⟨mkRat 1 200, mkRat 99 100, mkRat 1 200⟩,
              ⟨mkRat 1 400, mkRat 199 200, mkRat 1 400⟩]).c0
            (sumScores [⟨mkRat 1 200, mkRat 99 100, mkRat 1 200⟩,
              ⟨mkRat 1 400, mkRat 199 200, mkRat 1 400⟩]).c1)
            (sumScores [⟨mkRat 1 200, mkRat 99 100, mkRat 1 200⟩,
              ⟨mkRat 1 400, mkRat 199 200, mkRat 1 400⟩]).c2 / ((2 : ℕ) : ℚ)
    ∧ 0 ≤ (classify (sumScores [⟨mkRat 1 200, mkRat 99 100, mkRat 1 200⟩,
          ⟨mkRat 1 400, mkRat 199 200, mkRat 1 400⟩]) 2 (mkRat 49 50)).confidence
    ∧ (classify (sumScores [⟨mkRat 1 200, mkRat 99 100, mkRat 1 200⟩,
          ⟨mkRat 1 400, mkRat 199 200, mkRat 1 400⟩]) 2 (mkRat 49 50)).confidence ≤ 1 :=
  ensemble_confidence_invariant
    [⟨mkRat 1 200, mkRat 99 100, mkRat 1 200⟩, ⟨mkRat 1 400, mkRat 199 200, mkRat 1 400⟩]
    (mkRat 49 50) (by decide) (by decide)

theorem blinkRun_events (v : LivenessValidator) (es : List (ℚ × ℚ)) :
    (blinkRun v es).1
      = List.zipWith (fun c p => c && !p) (es.map earClosed)
          (v.prev_eye_closed :: es.map earClosed) := by
  induction es generalizing v with
  | nil => simp [blinkRun]
  | cons e es ih =>
    have h1 : (detect_blink v e.1 e.2).1 = (earClosed e && !v.prev_eye_closed) := rfl
    have h2 : (detect_blink v e.1 e.2).2.prev_eye_closed = earClosed e := rfl
    simp only [blinkRun, List.map_cons, List.zipWith_cons_cons, h1]
    rw [ih ((detect_blink v e.1 e.2).2), h2]

/-- Claim C6: with a fresh validator, a blink event fires on exactly the
frames whose average EAR is below the threshold while the previous frame
was open (falling edge); in particular the EAR sequence
[0.30, 0.15, 0.15, 0.30] yields exactly one blink event, on the second
frame, and the final blink count is 1. -/
theorem blink_edge_trigger :
    (∀ es : List (ℚ × ℚ),
      (blinkRun .init es).1
        = List.zipWith (fun c p => c && !p) (es.map earClosed)
            (false :: es.map earClosed))
    ∧ (blinkRun .init [(mkRat 3 10, mkRat 3 10), (mkRat 3 20, mkRat 3 20),
        (mkRat 3 20, mkRat 3 20), (mkRat 3 10, mkRat 3 10)]).1
      = [false, true, false, false]
    ∧ (blinkRun .init [(mkRat 3 10, mkRat 3 10), (mkRat 3 20, mkRat 3 20),
        (mkRat 3 20, mkRat 3 20), (mkRat 3 10, mkRat 3 10)]).2.blink_count = 1 :=
  ⟨fun es => blinkRun_events .init es, by decide, by decide⟩

/-- Claim C7: the claim states that `detect_wave` treats the hand as raised
iff the wrist is above frame mid-height (with fingertip above wrist).  The
code tests `wrist[1] < 0.5`, but `process_frame` hands it landmarks already
scaled to pixels (y multiplied by the frame height), so a hand plainly
raised above mid-height of a 640x480 frame (wrist at pixel row 100 of 480,
fingertip at row 50) is treated as not raised: six frames of a wide wrist
oscillation all return false and keep resetting the history.  The same
oscillation with y left in normalised units (what the 0.5 test expects)
fires from the fifth frame on, and the spec-side raised predicate holds on
every pixel-frame of the failing run. -/
theorem wave_raised_unit_mismatch :
    (waveRun .init 640 (oscillation.map (fun x => some (pixelHand x)))).1
      = List.replicate 6 false
    ∧ raisedPerSpec 480 ((pixelHand 100).getD 0 ⟨0, 0, 0⟩)
        ((pixelHand 100).getD 12 ⟨0, 0, 0⟩) = true
    ∧ raisedPerSpec 480 ((pixelHand 200).getD 0 ⟨0, 0, 0⟩)
        ((pixelHand 200).getD 12 ⟨0, 0, 0⟩) = true
    ∧ (waveRun .init 640 (oscillation.map (fun x => some (normalHand x)))).1
      = [false, false, false, false, true, true] :=
  ⟨by decide, by decide, by decide, by decide⟩

/-- Claim C8: the claim states that gesture history is isolated per
session.  The server keeps a single module-level validator, so state
mutated by one session's frames changes another session's events: after
session A submits a closed-eye frame, session B's first closed-eye frame
yields no blink event, while the same B frame alone (fresh state) yields
one. -/
theorem shared_validator_interference :
    runSharedBlink .init
        [("A", mkRat 3 20, mkRat 3 20), ("B", mkRat 3 20, mkRat 3 20)]
      = [("A", true), ("B", false)]
    ∧ runSharedBlink .init [("B", mkRat 3 20, mkRat 3 20)] = [("B", true)] :=
  ⟨by decide, by decide⟩

theorem gesture_ok_false_truthy (g : Option String) (r : FrameResults)
    (h : gesture_ok g r = false) : strTruthy g = true := by
  cases ht : strTruthy g with
  | false => rw [gesture_ok, ht] at h; simp at h
  | true => rfl

/-- Claim C3: the verdict of `validate_frame` is
`liveness AND face_detected AND gesture_ok`, and on failure the reason
list is exactly the face-not-detected reason, then the liveness reason,
then the gesture reason, each present iff its check failed. -/
theorem validate_verdict_and_reasons (r : FrameResults) (g : Option String) :
    validate_success r g = (r.liveness && r.face_detected && gesture_ok g r)
    ∧ (validate_success r g = false →
        failure_reasons r g
          = (if r.face_detected then [] else ["face not detected"])
            ++ (if r.liveness then [] else ["liveness check failed"])
            ++ (if gesture_ok g r then [] else [gesture_reason g])) := by
  refine ⟨rfl, fun hf => ?_⟩
  cases hg : gesture_ok g r with
  | false =>
    have ht := gesture_ok_false_truthy g r hg
    cases hl : r.liveness <;> cases hfd : r.face_detected <;>
      simp [failure_reasons, hl, hfd, hg, ht]
  | true =>
    cases hl : r.liveness <;> cases hfd : r.face_detected <;>
      simp_all [validate_success, failure_reasons]

/-- Claim C3 witness: on a frame failing all three checks with a claimed
blink, the verdict is false and the reasons appear in the fixed order. -/
theorem validate_verdict_and_reasons_witness :
    validate_success allFailResults (some "blink") = false
    ∧ failure_reasons allFailResults (some "blink")
      = ["face not detected", "liveness check failed",
          "gesture \x27blink\x27 not detected"] := by
  refine ⟨by decide, ?_⟩
  rw [(validate_verdict_and_reasons allFailResults (some "blink")).2 (by decide)]
  decide

/-- Claim C10: a validate call with no claimed gesture (absent or empty)
treats the gesture requirement as satisfied, so the verdict reduces to
`liveness AND face_detected` and a token is issued whenever a wallet is
supplied, without any gesture having been demonstrated; an unrecognized
gesture string instead yields a false gesture requirement. -/
theorem no_gesture_defaults_satisfied (r : FrameResults) (g : String)
    (wallet : Option String) :
    gesture_ok none r = true
    ∧ gesture_ok (some "") r = true
    ∧ validate_success r none = (r.liveness && r.face_detected)
    ∧ (g ≠ "" → g ∉ ["blink", "smile", "turn_left", "turn_right", "wave"] →
        gesture_ok (some g) r = false)
    ∧ (r.liveness = true → r.face_detected = true → strTruthy wallet = true →
        token_issued (validate_success r none) wallet = true) := by
  refine ⟨rfl, rfl, ?_, fun hne hnm => ?_, fun h1 h2 h3 => ?_⟩
  · simp [validate_success, gesture_ok, strTruthy]
  · simp only [List.mem_cons, List.not_mem_nil, or_false, not_or] at hnm
    obtain ⟨m1, m2, m3, m4, m5⟩ := hnm
    simp [gesture_ok, strTruthy, gesture_map_get, hne, m1, m2, m3, m4, m5]
  · have hgo : gesture_ok none r = true := rfl
    simp [token_issued, validate_success, hgo, h1, h2, h3]

/-- Claim C10 witness: a live frame with a face and no gesture signal
passes with no gesture claimed and a token is issued for the supplied
wallet; the unknown gesture string "jump" is not satisfied. -/
theorem no_gesture_defaults_satisfied_witness :
    gesture_ok (some "jump") noGestureResults = false
    ∧ token_issued (validate_success noGestureResults none) (some "0xabc") = true :=
  ⟨(no_gesture_defaults_satisfied noGestureResults "jump" (some "0xabc")).2.2.2.1
      (by decide) (by decide),
    (no_gesture_defaults_satisfied noGestureResults "jump" (some "0xabc")).2.2.2.2
      rfl rfl (by decide)⟩

theorem lowerCp_idem (n : ℕ) : lowerCp (lowerCp n) = lowerCp n := by
  unfold lowerCp
  split_ifs <;> omega

theorem pyLower_idem (s : PyStr) : pyLower (pyLower s) = pyLower s := by
  induction s with
  | nil => rfl
  | cons a l ih =>
    simp only [pyLower, List.map_cons] at ih ⊢
    rw [lowerCp_idem, ih]

/-- Claim C4: issuing a token and validating it before expiry returns the
claim set unchanged — in particular the subject (the lowercased identity),
the challenge type and the proof hash; validating it at or after expiry
fails with the distinct expired error; and `verify_for_minting` with a
caller whose lowercase form differs from the token subject returns false
(without raising: the validation error is caught and mapped to false). -/
theorem token_roundtrip (key : ℕ) (wallet ct ph sid : PyStr) (now now2 : ℤ) :
    (now2 < (create_verification_token key wallet ct ph sid now).payload.exp →
      validate_token key (create_verification_token key wallet ct ph sid now) now2
        = .ok (create_verification_token key wallet ct ph sid now).payload
      ∧ (create_verification_token key wallet ct ph sid now).payload.sub = pyLower wallet
      ∧ (create_verification_token key wallet ct ph sid now).payload.challenge_type = ct
      ∧ (create_verification_token key wallet ct ph sid now).payload.proof_hash = ph)
    ∧ ((create_verification_token key wallet ct ph sid now).payload.exp ≤ now2 →
        validate_token key (create_verification_token key wallet ct ph sid now) now2
          = .error .expired)
    ∧ (∀ caller : PyStr,
        pyLower caller ≠ (create_verification_token key wallet ct ph sid now).payload.sub →
        verify_for_minting key (create_verification_token key wallet ct ph sid now)
          caller now2 = false) := by
  refine ⟨fun hlt => ⟨?_, rfl, rfl, rfl⟩, fun hge => ?_, fun caller hne => ?_⟩
  · unfold validate_token
    rw [if_neg (by simp [create_verification_token]), if_neg (not_le.mpr hlt)]
  · unfold validate_token
    rw [if_neg (by simp [create_verification_token]), if_pos hge]
  · unfold verify_for_minting
    by_cases hexp : (create_verification_token key wallet ct ph sid now).payload.exp ≤ now2
    · rw [validate_token, if_neg (by simp [create_verification_token]), if_pos hexp]
    · rw [validate_token, if_neg (by simp [create_verification_token]),
        if_neg hexp]
      have hsub : pyLower (create_verification_token key wallet ct ph sid now).payload.sub
          = (create_verification_token key wallet ct ph sid now).payload.sub :=
        pyLower_idem wallet
      show (if pyLower (create_verification_token key wallet ct ph sid now).payload.sub
              ≠ pyLower caller then false
            else if (create_verification_token key wallet ct ph sid
                now).payload.verification_type ≠ PROOF_OF_LIFE then false
            else true) = false
      rw [hsub, if_pos (Ne.symm hne)]

/-- Claim C4 witness: token issued at time 1000 for wallet "0xAbC"
validates at time 2000 with subject "0xabc", fails as expired at time
90000, and verify for the different wallet "0xDEF" returns false. -/
theorem token_roundtrip_witness :
    validate_token 7 (create_verification_token 7 (pyStr "0xAbC") (pyStr "blink")
        (pyStr "h1") (pyStr "s1") 1000) 2000
      = .ok (create_verification_token 7 (pyStr "0xAbC") (pyStr "blink")
          (pyStr "h1") (pyStr "s1") 1000).payload
    ∧ (create_verification_token 7 (pyStr "0xAbC") (pyStr "blink")
        (pyStr "h1") (pyStr "s1") 1000).payload.sub = pyLower (pyStr "0xAbC")
    ∧ validate_token 7 (create_verification_token 7 (pyStr "0xAbC") (pyStr "blink")
        (pyStr "h1") (pyStr "s1") 1000) 90000 = .error .expired
    ∧ verify_for_minting 7 (create_verification_token 7 (pyStr "0xAbC") (pyStr "blink")
        (pyStr "h1") (pyStr "s1") 1000) (pyStr "0xDEF") 2000 = false :=
  ⟨((token_roundtrip 7 (pyStr "0xAbC") (pyStr "blink") (pyStr "h1") (pyStr "s1")
      1000 2000).1 (by decide)).1,
    ((token_roundtrip 7 (pyStr "0xAbC") (pyStr "blink") (pyStr "h1") (pyStr "s1")
      1000 2000).1 (by decide)).2.1,
    (token_roundtrip 7 (pyStr "0xAbC") (pyStr "blink") (pyStr "h1") (pyStr "s1")
      1000 90000).2.1 (by decide),
    (token_roundtrip 7 (pyStr "0xAbC") (pyStr "blink") (pyStr "h1") (pyStr "s1")
      1000 2000).2.2 (pyStr "0xDEF") (by decide)⟩

end ClearView
